import Mathlib

/-!
Shallow embedding of the chrysanthemum content-moderation bot's
configuration layer (`src/config.rs`) and of the test-command loop of
`src/command.rs`, together with theorems checking the natural-language
specification against it.

Conventions of the embedding:
* Rust `u8`/`u16`/`u64` id and count types are modelled as `Nat` (no
  arithmetic is performed on them anywhere in the embedded code, so no
  overflow wrapping is needed).
* A compiled `regex::Regex` is modelled by its pattern string; the
  semantics of the restricted pattern class actually produced by the
  config loader (alternations of escaped literals, optionally anchored
  with `\b`) is given by explicit executable matchers below.
* Fallible Rust functions returning `Result` are modelled with `Except`.
* File-system reads performed by `load_config` are modelled by an explicit
  `fetch` function passed as an argument.
-/

abbrev ChannelId := Nat
abbrev RoleId := Nat
abbrev GuildId := Nat
abbrev EmojiId := Nat
abbrev StickerIdT := Nat

/-- `regex::escape` escapes exactly the meta characters of the
`regex-syntax` crate (`is_meta_character`) by prepending a backslash. -/
def rust_is_meta_character (c : Char) : Bool :=
  c == '\\' || c == '.' || c == '+' || c == '*' || c == '?' || c == '(' ||
  c == ')' || c == '|' || c == '[' || c == ']' || c == Char.ofNat 123 ||
  c == Char.ofNat 125 || c == '^' || c == '$' || c == '#' || c == '&' ||
  c == '-' || c == '~'

/-- Model of `regex::escape`. -/
def regex_escape (s : String) : String :=
  String.mk ((s.toList.map
    (fun c => if rust_is_meta_character c then ['\\', c] else [c])).flatten)

/-- Model of `deserialize_regex_pattern` (config.rs:13-40): escape every
word of the configured list into a vector, then join with `|`. -/
def deserialize_regex_pattern (ws : List String) : String :=
  let words := ws.foldl (fun acc w => acc ++ [regex_escape w]) []
  String.intercalate "|" words

/-- Model of `deserialize_word_regex` (config.rs:45-67): wrap the joined
pattern in `\b(`...`)\b`. The result is the pattern of the compiled
`Regex` (compilation of these escaped-literal alternations never fails). -/
def deserialize_word_regex (ws : List String) : String :=
  let pattern := deserialize_regex_pattern ws
  "\\b(" ++ pattern ++ ")\\b"

/-- Model of `deserialize_substring_regex` (config.rs:69-89): the joined
pattern with no anchors. -/
def deserialize_substring_regex (ws : List String) : String :=
  deserialize_regex_pattern ws

/-- Word characters of the regex crate's `\b`, restricted to the ASCII
fragment (alphanumerics and underscore); every input used in the theorems
below is ASCII, where this agrees with the crate's Unicode `\w`. -/
def isWordChar (c : Char) : Bool := c.isAlphanum || c == '_'

def optIsWord : Option Char → Bool
  | some c => isWordChar c
  | none => false

/-- A `\b` word boundary holds at a position iff exactly one of the
characters around it is a word character (text edges count as non-word). -/
def isBoundary (a b : Option Char) : Bool := optIsWord a != optIsWord b

/-- Both `\b` anchors of `\b(w)\b` hold for the decomposition
`pre ++ w ++ post` of the input. -/
def boundaries_ok (pre w post : List Char) : Bool :=
  isBoundary pre.getLast? (w ++ post).head? &&
  isBoundary (pre ++ w).getLast? post.head?

/-- The alternative `w` of the compiled word regex matches at offset `i`
of `text` with both word-boundary anchors satisfied. -/
def word_match_at (text w : List Char) (i : Nat) : Bool :=
  let pre := text.take i
  let rest := text.drop i
  (rest.take w.length == w) && boundaries_ok pre w (rest.drop w.length)

/-- Semantics (regex crate `is_match`) of the pattern produced by
`deserialize_word_regex ws`: some original word occurs somewhere in the
text with word boundaries on both sides. -/
def word_regex_matches (ws : List String) (text : String) : Bool :=
  ws.any (fun w =>
    (List.range (text.toList.length + 1)).any
      (fun i => word_match_at text.toList w.toList i))

/-- The literal `w` occurs in `text` at some offset. -/
def occurs_in (w text : String) : Bool :=
  (List.range (text.toList.length + 1)).any
    (fun i => (text.toList.drop i).take w.toList.length == w.toList)

/-- Semantics (regex crate `is_match`) of the pattern produced by
`deserialize_substring_regex ws`: for a nonempty list, an alternation of
the escaped literals, each of which matches its original word literally;
for the empty list the produced pattern is the empty string, the empty
regex, which matches (an empty substring of) every input. -/
def substring_pattern_matches (ws : List String) (text : String) : Bool :=
  if ws.isEmpty then true
  else ws.any (fun w => occurs_in w text)

/-- Model of `MessageFilterAction` (config.rs:91-105). -/
inductive MessageFilterAction where
  | Delete
  | SendMessage (channel_id : ChannelId) (content : String) (requires_armed : Bool)
  | SendLog (channel_id : ChannelId)
deriving DecidableEq

/-- Model of `FilterMode` (config.rs:107-113). -/
inductive FilterMode where
  | AllowList
  | DenyList
deriving DecidableEq

/-- Model of `Scoping` (config.rs:115-123). -/
structure Scoping where
  exclude_channels : Option (List ChannelId)
  include_channels : Option (List ChannelId)
  exclude_roles : Option (List RoleId)
deriving DecidableEq

/-- Model of `MessageFilterRule` (config.rs:125-175); the compiled regexes
of the `Words`, `Substring`, `StickerName` and `EmojiName` cases are
represented by their pattern strings. -/
inductive MessageFilterRule where
  | Words (words : String)
  | Substring (substrings : String)
  | Regexes (regexes : List String)
  | Zalgo
  | MimeType (mode : FilterMode) (types : List String) (allow_unknown : Bool)
  | Invite (mode : FilterMode) (invites : List String)
  | Link (mode : FilterMode) (domains : List String)
  | StickerId (mode : FilterMode) (stickers : List StickerIdT)
  | StickerName (stickers : String)
  | EmojiName (names : String)
deriving DecidableEq

/-- Model of `SpamFilter` (config.rs:177-197). -/
structure SpamFilter where
  emoji : Option Nat
  duplicates : Option Nat
  links : Option Nat
  attachments : Option Nat
  spoilers : Option Nat
  mentions : Option Nat
  interval : Nat
  actions : Option (List MessageFilterAction)
  scoping : Option Scoping
deriving DecidableEq

/-- Model of `MessageFilter` (config.rs:199-208). -/
structure MessageFilter where
  name : String
  rules : List MessageFilterRule
  scoping : Option Scoping
  actions : Option (List MessageFilterAction)
deriving DecidableEq

/-- Model of `ReactionFilterRule` (config.rs:210-230). -/
inductive ReactionFilterRule where
  | Default (mode : FilterMode) (emoji : List String)
  | CustomId (mode : FilterMode) (emoji : List EmojiId)
  | CustomName (names : String)
deriving DecidableEq

/-- Model of `ReactionFilter` (config.rs:232-238). -/
structure ReactionFilter where
  name : String
  rules : List ReactionFilterRule
  scoping : Option Scoping
  actions : Option (List MessageFilterAction)
deriving DecidableEq

/-- Model of `SlashCommands` (config.rs:240-244). -/
structure SlashCommands where
  roles : List RoleId
deriving DecidableEq

/-- Model of `Notifications` (config.rs:246-252). -/
structure Notifications where
  channel : ChannelId
  ping_roles : Option (List RoleId)
deriving DecidableEq

/-- Model of `UsernameFilterRule` (config.rs:254-267). -/
inductive UsernameFilterRule where
  | Substring (substrings : String)
  | Regexes (regexes : List String)
deriving DecidableEq

/-- Model of `UsernameFilterAction` (config.rs:269-275). -/
inductive UsernameFilterAction where
  | SendMessage (channel_id : ChannelId) (content : String)
deriving DecidableEq

/-- Model of `UsernameFilter` (config.rs:277-283). -/
structure UsernameFilter where
  rules : List UsernameFilterRule
  actions : List UsernameFilterAction
deriving DecidableEq

/-- Model of `GuildConfig` (config.rs:285-300). -/
structure GuildConfig where
  notifications : Option Notifications
  slash_commands : Option SlashCommands
  default_scoping : Option Scoping
  default_actions : Option (List MessageFilterAction)
  messages : Option (List MessageFilter)
  reactions : Option (List ReactionFilter)
  spam : Option SpamFilter
  usernames : Option UsernameFilter
  include_bots : Bool
deriving DecidableEq

/-- Model of `validate_scoping` (config.rs:324-349); the four `errors.push`
sites become list concatenation in push order. -/
def validate_scoping (scoping : Scoping) (context : String) : List String :=
  (if scoping.exclude_channels.isSome && scoping.include_channels.isSome then
    ["in " ++ context ++ ", scoping rule specifies both exclude_channels and include_channels. Specify only one."]
   else []) ++
  (match scoping.exclude_channels with
   | some l =>
     if l.length = 0 then
       ["in " ++ context ++ ", scoping rule specifies an empty exclude_channels; omit the key instead."]
     else []
   | none => []) ++
  (match scoping.include_channels with
   | some l =>
     if l.length = 0 then
       ["in " ++ context ++ ", scoping rule specifies an empty include_channels; omit the key instead."]
     else []
   | none => []) ++
  (match scoping.exclude_roles with
   | some l =>
     if l.length = 0 then
       ["in " ++ context ++ ", scoping rule specifies an empty exclude_roles; omit the key instead."]
     else []
   | none => [])

/-- `has_default_actions` of `validate_guild_config` (config.rs:368-377):
set only when `default_actions` is present and nonempty. -/
def has_default_actions (g : GuildConfig) : Bool :=
  match g.default_actions with
  | some actions => if actions.length = 0 then false else true
  | none => false

/-- Errors pushed by the `slash_commands` block (config.rs:354-358). -/
def slash_commands_errors (g : GuildConfig) : List String :=
  match g.slash_commands with
  | some sc =>
    if sc.roles.length = 0 then
      ["slash_commands.roles is empty - no roles will be able to use slash commands."]
    else []
  | none => []

/-- Errors pushed by the `default_scoping` block (config.rs:360-366). -/
def default_scoping_errors (g : GuildConfig) : List String :=
  match g.default_scoping with
  | some scoping => validate_scoping scoping "default scoping"
  | none => []

/-- Errors pushed by the `default_actions` block (config.rs:368-377). -/
def default_actions_errors (g : GuildConfig) : List String :=
  match g.default_actions with
  | some actions =>
    if actions.length = 0 then ["default_actions is specified but is empty."]
    else []
  | none => []

/-- Errors pushed by the `notifications` block (config.rs:379-385). -/
def notifications_errors (g : GuildConfig) : List String :=
  match g.notifications with
  | some notif =>
    match notif.ping_roles with
    | some roles =>
      if roles.length = 0 then
        ["notification settings, ping_roles is specified but is empty; omit the key."]
      else []
    | none => []
  | none => []

/-- Errors pushed by the `spam` block (config.rs:387-414), in push order:
scoping, actions, thresholds. Faithful to the source, the threshold check
tests `emoji`, `attachments`, `duplicates`, `links` and `spoilers` only —
it does not look at `mentions`. -/
def spam_errors (g : GuildConfig) : List String :=
  match g.spam with
  | none => []
  | some spam =>
    (match spam.scoping with
     | some scoping => validate_scoping scoping "spam scoping"
     | none => []) ++
    (match spam.actions with
     | some actions =>
       if actions.length = 0 then
         ["in spam config, actions is specified but is empty."]
       else []
     | none =>
       if has_default_actions g then []
       else
         ["in spam config, no actions are specified and there are no default actions for this guild."]) ++
    (if spam.emoji.isNone && spam.attachments.isNone && spam.duplicates.isNone
        && spam.links.isNone && spam.spoilers.isNone then
       ["in spam config, no spam thresholds are specified. Spam filtering will have no effects."]
     else [])

/-- Errors pushed by the `usernames` block (config.rs:416-426). -/
def usernames_errors (g : GuildConfig) : List String :=
  match g.usernames with
  | some u =>
    (if u.actions.length = 0 then ["in username config, actions is empty."] else []) ++
    (if u.rules.length = 0 then ["in username config, rules is empty."] else [])
  | none => []

/-- Errors pushed for one message filter at index `i` (config.rs:435-463),
in push order: actions, scoping, rules. -/
def message_filter_errors (hda : Bool) (i : Nat) (f : MessageFilter) : List String :=
  (match f.actions with
   | some actions =>
     if actions.length = 0 then
       ["message filter " ++ Nat.repr i ++ " has an empty actions array; omit the key to use default actions"]
     else []
   | none =>
     if hda then []
     else
       ["message filter " ++ Nat.repr i ++ " does not specify actions, but this guild has no default actions."]) ++
  (match f.scoping with
   | some scoping => validate_scoping scoping ("message filter " ++ Nat.repr i)
   | none => []) ++
  (if f.rules.length = 0 then
     ["message filter " ++ Nat.repr i ++ " has no rules"]
   else [])

/-- The `for (i, filter) in messages.iter().enumerate()` loop. -/
def message_filters_errors (hda : Bool) : Nat → List MessageFilter → List String
  | _, [] => []
  | i, f :: rest => message_filter_errors hda i f ++ message_filters_errors hda (i + 1) rest

/-- Errors pushed by the `messages` block (config.rs:428-464). -/
def messages_errors (g : GuildConfig) : List String :=
  match g.messages with
  | none => []
  | some ms =>
    (if ms.length = 0 then ["messages is empty; omit the key."] else []) ++
    message_filters_errors (has_default_actions g) 0 ms

/-- Errors pushed for one reaction filter at index `i` (config.rs:471-499),
in push order: actions, scoping, rules. -/
def reaction_filter_errors (hda : Bool) (i : Nat) (f : ReactionFilter) : List String :=
  (match f.actions with
   | some actions =>
     if actions.length = 0 then
       ["reaction filter " ++ Nat.repr i ++ " has an empty actions array; omit the key to use default actions"]
     else []
   | none =>
     if hda then []
     else
       ["reaction filter " ++ Nat.repr i ++ " does not specify actions, but this guild has no default actions."]) ++
  (match f.scoping with
   | some scoping => validate_scoping scoping ("reaction filter " ++ Nat.repr i)
   | none => []) ++
  (if f.rules.length = 0 then
     ["reaction filter " ++ Nat.repr i ++ " has no rules"]
   else [])

/-- The `for (i, filter) in reactions.iter().enumerate()` loop. -/
def reaction_filters_errors (hda : Bool) : Nat → List ReactionFilter → List String
  | _, [] => []
  | i, f :: rest => reaction_filter_errors hda i f ++ reaction_filters_errors hda (i + 1) rest

/-- Errors pushed by the `reactions` block (config.rs:466-500). -/
def reactions_errors (g : GuildConfig) : List String :=
  match g.reactions with
  | none => []
  | some rs =>
    (if rs.length = 0 then
       ["reactions is specified but is empty; omit the key to disable reaction filtering"]
     else []) ++
    reaction_filters_errors (has_default_actions g) 0 rs

/-- The full error vector accumulated by `validate_guild_config`
(config.rs:351-507), blocks concatenated in source push order. -/
def guild_config_errors (g : GuildConfig) : List String :=
  slash_commands_errors g ++ default_scoping_errors g ++ default_actions_errors g ++
  notifications_errors g ++ spam_errors g ++ usernames_errors g ++
  messages_errors g ++ reactions_errors g

/-- Model of `validate_guild_config` (config.rs:351-507). -/
def validate_guild_config (g : GuildConfig) : Except (List String) Unit :=
  let errors := guild_config_errors g
  if errors.length > 0 then Except.error errors else Except.ok ()

/-- Model of `LoadConfigError` (config.rs:509-517). -/
inductive LoadConfigError where
  | ioError (msg : String)
  | deserializeError (msg : String)
  | validateError (errs : List String)
deriving DecidableEq

/-- Model of `load_config` (config.rs:519-530). Reading the config file
from disk and parsing its JSON are I/O performed by external crates; they
are modelled by the explicit `fetch` argument, which yields either the
parsed `GuildConfig` or a read/parse error. The function returns the
parsed config only after `validate_guild_config` accepts it. -/
def load_config (fetch : GuildId → Except LoadConfigError GuildConfig)
    (guild_id : GuildId) : Except LoadConfigError GuildConfig :=
  match fetch guild_id with
  | Except.error e => Except.error e
  | Except.ok config_json =>
    match validate_guild_config config_json with
    | Except.ok () => Except.ok config_json
    | Except.error errs => Except.error (LoadConfigError.validateError errs)

/-- Model of `load_guild_configs` (config.rs:532-543): load every guild in
order, failing wholesale on the first failure; the resulting `HashMap` is
modelled as an association list queried with `List.lookup`. -/
def load_guild_configs (fetch : GuildId → Except LoadConfigError GuildConfig) :
    List GuildId → Except LoadConfigError (List (GuildId × GuildConfig))
  | [] => Except.ok []
  | gid :: rest =>
    match load_config fetch gid with
    | Except.error e => Except.error e
    | Except.ok cfg =>
      match load_guild_configs fetch rest with
      | Except.error e => Except.error e
      | Except.ok configs => Except.ok ((gid, cfg) :: configs)

/-- Rust `Result::and`: keep the first error, otherwise the second result. -/
def result_and (a b : Except String Unit) : Except String Unit :=
  match a with
  | Except.error e => Except.error e
  | Except.ok _ => b

/-- The test-command loop of `handle_command` (command.rs:228-232):
starting from `Ok(())`, fold `result = result.and(filter.filter_text(message))`
over the guild's message filters. The Rust code calls `filter_text` eagerly
on every iteration (it is an argument of `and`), so the second component
records each filter's own evaluation in order. `filter_text` itself lives
in the filter module outside this repository slice and is passed in
abstractly. -/
def test_command_loop (ft : MessageFilter → String → Except String Unit) (message : String) :
    List MessageFilter → Except String Unit × List (Except String Unit) →
    Except String Unit × List (Except String Unit)
  | [], acc => acc
  | f :: rest, acc =>
    let r := ft f message
    test_command_loop ft message rest (result_and acc.1 r, acc.2 ++ [r])

/-- The final `result` of the test-command loop. -/
def test_command_result (ft : MessageFilter → String → Except String Unit)
    (filters : List MessageFilter) (message : String) : Except String Unit :=
  (test_command_loop ft message filters (Except.ok (), [])).1

/-- The per-filter evaluations performed by the test-command loop. -/
def test_command_evaluations (ft : MessageFilter → String → Except String Unit)
    (filters : List MessageFilter) (message : String) : List (Except String Unit) :=
  (test_command_loop ft message filters (Except.ok (), [])).2

/-- The `result_string` reported by the test command (command.rs:234-237). -/
def test_command_report (ft : MessageFilter → String → Except String Unit)
    (filters : List MessageFilter) (message : String) : String :=
  match test_command_result ft filters message with
  | Except.ok _ => "✅ Passed all filters"
  | Except.error reason => "❎ Failed filter: " ++ reason

/-- The places a `Scoping` can appear in a `GuildConfig`, paired with the
exact context string `validate_guild_config` passes to `validate_scoping`
for that place. -/
def ScopingOccurrence (g : GuildConfig) (ctx : String) (s : Scoping) : Prop :=
  (g.default_scoping = some s ∧ ctx = "default scoping") ∨
  (∃ sp, g.spam = some sp ∧ sp.scoping = some s ∧ ctx = "spam scoping") ∨
  (∃ ms i f, g.messages = some ms ∧ ms.get? i = some f ∧ f.scoping = some s ∧
     ctx = "message filter " ++ Nat.repr i) ∨
  (∃ rs i f, g.reactions = some rs ∧ rs.get? i = some f ∧ f.scoping = some s ∧
     ctx = "reaction filter " ++ Nat.repr i)

/-- An empty guild config; every optional section omitted. -/
def g_empty : GuildConfig :=
  { notifications := none, slash_commands := none, default_scoping := none,
    default_actions := none, messages := none, reactions := none,
    spam := none, usernames := none, include_bots := false }

/-- A scoping with both channel lists present. -/
def s_both : Scoping :=
  { exclude_channels := some [1], include_channels := some [2], exclude_roles := none }

/-- A scoping whose three lists are all present but empty. -/
def s_allempty : Scoping :=
  { exclude_channels := some [], include_channels := some [], exclude_roles := some [] }

/-- Guild config whose default scoping sets both channel lists. -/
def g_both : GuildConfig := { g_empty with default_scoping := some s_both }

/-- Guild config whose default scoping carries three present-but-empty lists. -/
def g_allempty : GuildConfig := { g_empty with default_scoping := some s_allempty }

/-- Guild config with two independent problems: a contradictory default
scoping and a present-but-empty `default_actions`. -/
def g_multi : GuildConfig :=
  { g_empty with default_scoping := some s_both, default_actions := some [] }

/-- Spam config that sets only the `mentions` threshold (plus the required
interval and an actions list). -/
def sp_mentions_only : SpamFilter :=
  { emoji := none, duplicates := none, links := none, attachments := none,
    spoilers := none, mentions := some 5, interval := 30,
    actions := some [MessageFilterAction.Delete], scoping := none }

/-- Guild config whose spam section sets only the `mentions` threshold. -/
def g_mentions_only : GuildConfig := { g_empty with spam := some sp_mentions_only }

/-- A message filter with its own nonempty actions list and one rule. -/
def mf_ok : MessageFilter :=
  { name := "f", rules := [MessageFilterRule.Zalgo],
    scoping := none, actions := some [MessageFilterAction.Delete] }

/-- A valid guild config containing one message filter. -/
def g_ok : GuildConfig := { g_empty with messages := some [mf_ok] }

/-- A message filter whose single Words rule was compiled from an empty
word list. -/
def mf_empty_words : MessageFilter :=
  { name := "f", rules := [MessageFilterRule.Words (deserialize_word_regex [])],
    scoping := none, actions := some [MessageFilterAction.Delete] }

/-- A guild config whose single message filter carries a Words rule
compiled from an empty word list. -/
def g_empty_words : GuildConfig := { g_empty with messages := some [mf_empty_words] }

lemma validate_guild_config_ok_iff (g : GuildConfig) :
    validate_guild_config g = Except.ok () ↔ guild_config_errors g = [] := by
  unfold validate_guild_config
  cases hg : guild_config_errors g with
  | nil => simp
  | cons e es => simp

lemma validate_guild_config_error_elim {g : GuildConfig} {errs : List String}
    (h : validate_guild_config g = Except.error errs) :
    errs = guild_config_errors g ∧ errs ≠ [] := by
  unfold validate_guild_config at h
  cases hg : guild_config_errors g with
  | nil => rw [hg] at h; simp at h
  | cons e es =>
    rw [hg] at h
    simp at h
    subst h
    exact ⟨rfl, by simp⟩

lemma validate_guild_config_error_of_mem {g : GuildConfig} {e : String}
    (h : e ∈ guild_config_errors g) :
    validate_guild_config g = Except.error (guild_config_errors g) := by
  unfold validate_guild_config
  cases hg : guild_config_errors g with
  | nil => rw [hg] at h; simp at h
  | cons x xs => simp

/-- **C5** Deserializing a Words rule from a string list compiles it into
exactly the word-boundary-anchored alternation `\b(e1|...|en)\b` of the
regex-escaped literals (joined with `|`); the example list
`["a", "b", "a(b)"]` compiles to `\b(a|b|a\(b\))\b`; the Substring,
StickerName and EmojiName rules compile the same alternation with no `\b`
anchors. -/
theorem word_regex_pattern_shape (ws : List String) :
    deserialize_word_regex ws =
      "\\b(" ++ String.intercalate "|" (ws.map regex_escape) ++ ")\\b" ∧
    deserialize_substring_regex ws = String.intercalate "|" (ws.map regex_escape) ∧
    deserialize_word_regex ["a", "b", "a(b)"] = "\\b(a|b|a\\(b\\))\\b" := by
  have hfold : ∀ acc : List String,
      ws.foldl (fun acc w => acc ++ [regex_escape w]) acc = acc ++ ws.map regex_escape := by
    induction ws with
    | nil => intro acc; simp
    | cons w ws ih => intro acc; simp [List.foldl, ih]
  refine ⟨?_, ?_, by decide⟩
  · simp [deserialize_word_regex, deserialize_regex_pattern, hfold]
  · simp [deserialize_substring_regex, deserialize_regex_pattern, hfold]

/-- **C7** Evaluation at the failing input: a spam config that sets only
the `mentions` threshold (of the six documented threshold kinds) is
nonetheless rejected with the "no spam thresholds are specified" error,
because the source's threshold check omits the `mentions` field. -/
theorem spam_mentions_only_rejected :
    g_mentions_only.spam = some sp_mentions_only ∧
    sp_mentions_only.mentions = some 5 ∧
    validate_guild_config g_mentions_only = Except.error
      ["in spam config, no spam thresholds are specified. Spam filtering will have no effects."] := by
  exact ⟨rfl, rfl, by rfl⟩

/-- **C10** Deserialization accepts a Words (or Substring-family) rule with
an empty configured list: the Words rule compiles to the degenerate pattern
`\b()\b`, the Substring-family rules to the empty pattern, which matches
every string; and `validate_guild_config` raises no error for a config
whose message filter carries such a rule. -/
theorem empty_rule_lists_accepted :
    deserialize_word_regex [] = "\\b()\\b" ∧
    deserialize_substring_regex [] = "" ∧
    (∀ text, substring_pattern_matches [] text = true) ∧
    validate_guild_config g_empty_words = Except.ok () := by
  refine ⟨by decide, by decide, fun text => rfl, by rfl⟩

/-- **C3** `validate_guild_config` enumerates all problems found: any
returned error list is exactly the accumulated problem list and is never
empty; it returns `Ok` exactly when no problem is found; and the config
`g_multi`, which has a contradictory default scoping and a separate empty
`default_actions`, yields one human-readable string for each of the two
problems. -/
theorem validate_enumerates_all_problems :
    (∀ g errs, validate_guild_config g = Except.error errs →
       errs = guild_config_errors g ∧ errs ≠ []) ∧
    (∀ g, validate_guild_config g = Except.ok () ↔ guild_config_errors g = []) ∧
    validate_guild_config g_multi = Except.error
      ["in default scoping, scoping rule specifies both exclude_channels and include_channels. Specify only one.",
       "default_actions is specified but is empty."] := by
  exact ⟨fun g errs h => validate_guild_config_error_elim h,
    fun g => validate_guild_config_ok_iff g, by rfl⟩

/-- Witness for C3 at a concrete input: the two-problem config produces a
nonempty error list. -/
theorem validate_enumerates_all_problems_witness :
    (["in default scoping, scoping rule specifies both exclude_channels and include_channels. Specify only one.",
      "default_actions is specified but is empty."] : List String) ≠ [] :=
  (validate_enumerates_all_problems.1 g_multi _ (by rfl)).2

lemma mem_message_filters_errors (hda : Bool) (e : String) :
    ∀ (l : List MessageFilter) (n i : Nat) (f : MessageFilter),
      l.get? i = some f → e ∈ message_filter_errors hda (n + i) f →
      e ∈ message_filters_errors hda n l := by
  intro l
  induction l with
  | nil => intro n i f h he; exact absurd h (by simp [List.get?])
  | cons a l ih =>
    intro n i f hg he
    cases i with
    | zero =>
      have ha : a = f := Option.some.inj hg
      subst ha
      simp only [message_filters_errors, List.mem_append]
      exact Or.inl he
    | succ i =>
      have hg' : l.get? i = some f := hg
      simp only [message_filters_errors, List.mem_append]
      refine Or.inr (ih (n + 1) i f hg' ?_)
      have harith : n + 1 + i = n + (i + 1) := by omega
      rw [harith]
      exact he

lemma mem_reaction_filters_errors (hda : Bool) (e : String) :
    ∀ (l : List ReactionFilter) (n i : Nat) (f : ReactionFilter),
      l.get? i = some f → e ∈ reaction_filter_errors hda (n + i) f →
      e ∈ reaction_filters_errors hda n l := by
  intro l
  induction l with
  | nil => intro n i f h he; exact absurd h (by simp [List.get?])
  | cons a l ih =>
    intro n i f hg he
    cases i with
    | zero =>
      have ha : a = f := Option.some.inj hg
      subst ha
      simp only [reaction_filters_errors, List.mem_append]
      exact Or.inl he
    | succ i =>
      have hg' : l.get? i = some f := hg
      simp only [reaction_filters_errors, List.mem_append]
      refine Or.inr (ih (n + 1) i f hg' ?_)
      have harith : n + 1 + i = n + (i + 1) := by omega
      rw [harith]
      exact he

lemma mem_guild_errors_dflt {g : GuildConfig} {e : String}
    (h : e ∈ default_scoping_errors g) : e ∈ guild_config_errors g := by
  simp only [guild_config_errors, List.mem_append]
  tauto

lemma mem_guild_errors_spam {g : GuildConfig} {e : String}
    (h : e ∈ spam_errors g) : e ∈ guild_config_errors g := by
  simp only [guild_config_errors, List.mem_append]
  tauto

lemma mem_guild_errors_msgs {g : GuildConfig} {e : String}
    (h : e ∈ messages_errors g) : e ∈ guild_config_errors g := by
  simp only [guild_config_errors, List.mem_append]
  tauto

lemma mem_guild_errors_rcts {g : GuildConfig} {e : String}
    (h : e ∈ reactions_errors g) : e ∈ guild_config_errors g := by
  simp only [guild_config_errors, List.mem_append]
  tauto

lemma mem_guild_errors_of_occurrence {g : GuildConfig} {ctx : String} {s : Scoping}
    {e : String} (hocc : ScopingOccurrence g ctx s) (he : e ∈ validate_scoping s ctx) :
    e ∈ guild_config_errors g := by
  rcases hocc with ⟨hd, hctx⟩ | ⟨sp, hsp, hsc, hctx⟩ |
    ⟨ms, i, f, hms, hget, hsc, hctx⟩ | ⟨rs, i, f, hrs, hget, hsc, hctx⟩
  · subst hctx
    refine mem_guild_errors_dflt ?_
    simp only [default_scoping_errors, hd]
    exact he
  · subst hctx
    refine mem_guild_errors_spam ?_
    simp only [spam_errors, hsp, hsc, List.mem_append]
    tauto
  · subst hctx
    refine mem_guild_errors_msgs ?_
    have hf : e ∈ message_filter_errors (has_default_actions g) i f := by
      simp only [message_filter_errors, hsc, List.mem_append]
      tauto
    have hloop : e ∈ message_filters_errors (has_default_actions g) 0 ms :=
      mem_message_filters_errors (has_default_actions g) e ms 0 i f hget (by simpa using hf)
    simp only [messages_errors, hms, List.mem_append]
    tauto
  · subst hctx
    refine mem_guild_errors_rcts ?_
    have hf : e ∈ reaction_filter_errors (has_default_actions g) i f := by
      simp only [reaction_filter_errors, hsc, List.mem_append]
      tauto
    have hloop : e ∈ reaction_filters_errors (has_default_actions g) 0 rs :=
      mem_reaction_filters_errors (has_default_actions g) e rs 0 i f hget (by simpa using hf)
    simp only [reactions_errors, hrs, List.mem_append]
    tauto

lemma validate_error_with_mem {g : GuildConfig} {e : String}
    (h : e ∈ guild_config_errors g) :
    ∃ errs, validate_guild_config g = Except.error errs ∧ e ∈ errs :=
  ⟨guild_config_errors g, validate_guild_config_error_of_mem h, h⟩

/-- **C1** For every guild config, whenever any scoping occurrence in it
(default scoping, spam scoping, or any message/reaction filter scoping)
sets both `include_channels` and `exclude_channels`, validation returns
`Err`, and the error list contains the "specifies both" error naming that
occurrence's context. -/
theorem validate_rejects_contradictory_scoping (g : GuildConfig) (ctx : String)
    (s : Scoping) (hocc : ScopingOccurrence g ctx s)
    (hex : s.exclude_channels.isSome = true) (hinc : s.include_channels.isSome = true) :
    ∃ errs, validate_guild_config g = Except.error errs ∧
      ("in " ++ ctx ++ ", scoping rule specifies both exclude_channels and include_channels. Specify only one.") ∈ errs := by
  refine validate_error_with_mem (mem_guild_errors_of_occurrence hocc ?_)
  simp only [validate_scoping, hex, hinc, Bool.and_self, if_true, List.mem_append]
  simp

/-- Witness for C1: a config whose default scoping sets both channel lists
is rejected with the corresponding error. -/
theorem validate_rejects_contradictory_scoping_witness :
    ∃ errs, validate_guild_config g_both = Except.error errs ∧
      ("in default scoping, scoping rule specifies both exclude_channels and include_channels. Specify only one.") ∈ errs :=
  validate_rejects_contradictory_scoping g_both "default scoping" s_both
    (Or.inl ⟨rfl, rfl⟩) rfl rfl

/-- **C2** For every guild config and every scoping occurrence in it, a
present-but-empty `exclude_channels`, `include_channels` or
`exclude_roles` list each produce the corresponding "omit the key instead"
validation error for that occurrence. -/
theorem validate_rejects_empty_scoping_lists (g : GuildConfig) (ctx : String)
    (s : Scoping) (hocc : ScopingOccurrence g ctx s) :
    (s.exclude_channels = some [] →
      ∃ errs, validate_guild_config g = Except.error errs ∧
        ("in " ++ ctx ++ ", scoping rule specifies an empty exclude_channels; omit the key instead.") ∈ errs) ∧
    (s.include_channels = some [] →
      ∃ errs, validate_guild_config g = Except.error errs ∧
        ("in " ++ ctx ++ ", scoping rule specifies an empty include_channels; omit the key instead.") ∈ errs) ∧
    (s.exclude_roles = some [] →
      ∃ errs, validate_guild_config g = Except.error errs ∧
        ("in " ++ ctx ++ ", scoping rule specifies an empty exclude_roles; omit the key instead.") ∈ errs) := by
  refine ⟨fun h => ?_, fun h => ?_, fun h => ?_⟩ <;>
    refine validate_error_with_mem (mem_guild_errors_of_occurrence hocc ?_) <;>
    simp [validate_scoping, h, List.mem_append]

/-- Witness for C2: a default scoping with all three lists present but
empty is rejected with the `exclude_roles` error. -/
theorem validate_rejects_empty_scoping_lists_witness :
    ∃ errs, validate_guild_config g_allempty = Except.error errs ∧
      ("in default scoping, scoping rule specifies an empty exclude_roles; omit the key instead.") ∈ errs :=
  (validate_rejects_empty_scoping_lists g_allempty "default scoping" s_allempty
    (Or.inl ⟨rfl, rfl⟩)).2.2 rfl

lemma has_default_actions_spec {g : GuildConfig} (h : has_default_actions g = true) :
    ∃ d, g.default_actions = some d ∧ d ≠ [] := by
  unfold has_default_actions at h
  cases hd : g.default_actions with
  | none => rw [hd] at h; simp at h
  | some d =>
    rw [hd] at h
    by_cases hl : d.length = 0
    · simp [hl] at h
    · exact ⟨d, rfl, fun hnil => hl (by simp [hnil])⟩

lemma message_filter_errors_nil_actions {hda : Bool} {i : Nat} {f : MessageFilter}
    (h : message_filter_errors hda i f = []) :
    (∃ a, f.actions = some a ∧ a ≠ []) ∨ hda = true := by
  unfold message_filter_errors at h
  rcases List.append_eq_nil.mp h with ⟨h1, _⟩
  rcases List.append_eq_nil.mp h1 with ⟨ha, _⟩
  cases hf : f.actions with
  | some a =>
    rw [hf] at ha
    by_cases hl : a.length = 0
    · simp [hl] at ha
    · exact Or.inl ⟨a, rfl, fun hnil => hl (by simp [hnil])⟩
  | none =>
    rw [hf] at ha
    by_cases hb : hda
    · exact Or.inr hb
    · simp [hb] at ha

lemma reaction_filter_errors_nil_actions {hda : Bool} {i : Nat} {f : ReactionFilter}
    (h : reaction_filter_errors hda i f = []) :
    (∃ a, f.actions = some a ∧ a ≠ []) ∨ hda = true := by
  unfold reaction_filter_errors at h
  rcases List.append_eq_nil.mp h with ⟨h1, _⟩
  rcases List.append_eq_nil.mp h1 with ⟨ha, _⟩
  cases hf : f.actions with
  | some a =>
    rw [hf] at ha
    by_cases hl : a.length = 0
    · simp [hl] at ha
    · exact Or.inl ⟨a, rfl, fun hnil => hl (by simp [hnil])⟩
  | none =>
    rw [hf] at ha
    by_cases hb : hda
    · exact Or.inr hb
    · simp [hb] at ha

lemma message_filters_errors_nil {hda : Bool} :
    ∀ (l : List MessageFilter) (n : Nat), message_filters_errors hda n l = [] →
      ∀ f ∈ l, ∃ i, message_filter_errors hda i f = [] := by
  intro l
  induction l with
  | nil => intro n h f hf; simp at hf
  | cons a l ih =>
    intro n h f hf
    unfold message_filters_errors at h
    rcases List.append_eq_nil.mp h with ⟨h1, h2⟩
    rcases List.mem_cons.mp hf with rfl | hf'
    · exact ⟨n, h1⟩
    · exact ih (n + 1) h2 f hf'

lemma reaction_filters_errors_nil {hda : Bool} :
    ∀ (l : List ReactionFilter) (n : Nat), reaction_filters_errors hda n l = [] →
      ∀ f ∈ l, ∃ i, reaction_filter_errors hda i f = [] := by
  intro l
  induction l with
  | nil => intro n h f hf; simp at hf
  | cons a l ih =>
    intro n h f hf
    unfold reaction_filters_errors at h
    rcases List.append_eq_nil.mp h with ⟨h1, h2⟩
    rcases List.mem_cons.mp hf with rfl | hf'
    · exact ⟨n, h1⟩
    · exact ih (n + 1) h2 f hf'

lemma guild_config_errors_nil_parts {g : GuildConfig}
    (h : guild_config_errors g = []) :
    spam_errors g = [] ∧ messages_errors g = [] ∧ reactions_errors g = [] := by
  unfold guild_config_errors at h
  rcases List.append_eq_nil.mp h with ⟨h1, h8⟩
  rcases List.append_eq_nil.mp h1 with ⟨h2, h7⟩
  rcases List.append_eq_nil.mp h2 with ⟨h3, h6⟩
  rcases List.append_eq_nil.mp h3 with ⟨h4, h5⟩
  exact ⟨h5, h7, h8⟩

/-- **C8** Invariant of every config accepted by `validate_guild_config`:
each message filter, each reaction filter, and the spam config (when
present) either carries its own nonempty actions list or the guild has a
nonempty `default_actions` list, so action resolution can never find
neither filter-specific nor default actions. -/
theorem accepted_config_has_actions (g : GuildConfig)
    (h : validate_guild_config g = Except.ok ()) :
    (∀ ms f, g.messages = some ms → f ∈ ms →
       (∃ a, f.actions = some a ∧ a ≠ []) ∨
       (∃ d, g.default_actions = some d ∧ d ≠ [])) ∧
    (∀ rs f, g.reactions = some rs → f ∈ rs →
       (∃ a, f.actions = some a ∧ a ≠ []) ∨
       (∃ d, g.default_actions = some d ∧ d ≠ [])) ∧
    (∀ sp, g.spam = some sp →
       (∃ a, sp.actions = some a ∧ a ≠ []) ∨
       (∃ d, g.default_actions = some d ∧ d ≠ [])) := by
  have hnil := (validate_guild_config_ok_iff g).mp h
  obtain ⟨hspam, hmsgs, hrcts⟩ := guild_config_errors_nil_parts hnil
  refine ⟨?_, ?_, ?_⟩
  · intro ms f hms hf
    rw [messages_errors, hms] at hmsgs
    rcases List.append_eq_nil.mp hmsgs with ⟨_, hloop⟩
    obtain ⟨i, hi⟩ := message_filters_errors_nil ms 0 hloop f hf
    rcases message_filter_errors_nil_actions hi with hown | hda
    · exact Or.inl hown
    · exact Or.inr (has_default_actions_spec hda)
  · intro rs f hrs hf
    rw [reactions_errors, hrs] at hrcts
    rcases List.append_eq_nil.mp hrcts with ⟨_, hloop⟩
    obtain ⟨i, hi⟩ := reaction_filters_errors_nil rs 0 hloop f hf
    rcases reaction_filter_errors_nil_actions hi with hown | hda
    · exact Or.inl hown
    · exact Or.inr (has_default_actions_spec hda)
  · intro sp hsp
    rw [spam_errors, hsp] at hspam
    rcases List.append_eq_nil.mp hspam with ⟨h1, _⟩
    rcases List.append_eq_nil.mp h1 with ⟨_, ha⟩
    cases hf : sp.actions with
    | some a =>
      rw [hf] at ha
      by_cases hl : a.length = 0
      · simp [hl] at ha
      · exact Or.inl ⟨a, rfl, fun hnil => hl (by simp [hnil])⟩
    | none =>
      rw [hf] at ha
      by_cases hb : has_default_actions g
      · exact Or.inr (has_default_actions_spec hb)
      · simp [hb] at ha

/-- Witness for C8: in the accepted config `g_ok` the single message
filter has its own nonempty actions list (or default actions exist). -/
theorem accepted_config_has_actions_witness :
    (∃ a, mf_ok.actions = some a ∧ a ≠ []) ∨
      (∃ d, g_ok.default_actions = some d ∧ d ≠ []) :=
  (accepted_config_has_actions g_ok (by rfl)).1 [mf_ok] mf_ok rfl (by decide)

lemma load_config_ok_elim {fetch : GuildId → Except LoadConfigError GuildConfig}
    {gid : GuildId} {cfg : GuildConfig}
    (h : load_config fetch gid = Except.ok cfg) :
    fetch gid = Except.ok cfg ∧ validate_guild_config cfg = Except.ok () := by
  unfold load_config at h
  split at h
  · simp at h
  · rename_i c heq
    split at h
    · rename_i hv
      simp at h
      subst h
      exact ⟨heq, hv⟩
    · rename_i errs hv
      simp at h

/-- **C4** Loading fails closed: `load_config` returns a guild config only
when `validate_guild_config` accepts it, and `load_guild_configs` either
returns a map with a validated config for every requested guild id, or an
error as soon as any single guild's config fails to read, parse or
validate — never a partial map. -/
theorem load_fails_closed (fetch : GuildId → Except LoadConfigError GuildConfig) :
    (∀ gid cfg, load_config fetch gid = Except.ok cfg →
       fetch gid = Except.ok cfg ∧ validate_guild_config cfg = Except.ok ()) ∧
    (∀ gids configs, load_guild_configs fetch gids = Except.ok configs →
       ∀ gid, gid ∈ gids → ∃ cfg, configs.lookup gid = some cfg ∧
         validate_guild_config cfg = Except.ok ()) ∧
    (∀ gids gid, gid ∈ gids → (∃ e, load_config fetch gid = Except.error e) →
       ∃ e, load_guild_configs fetch gids = Except.error e) := by
  refine ⟨fun gid cfg h => load_config_ok_elim h, ?_, ?_⟩
  · intro gids
    induction gids with
    | nil => intro configs _ gid hmem; simp at hmem
    | cons a rest ih =>
      intro configs h gid hmem
      unfold load_guild_configs at h
      cases h1 : load_config fetch a with
      | error e => rw [h1] at h; simp at h
      | ok c =>
        rw [h1] at h
        cases h2 : load_guild_configs fetch rest with
        | error e => rw [h2] at h; simp at h
        | ok cs =>
          rw [h2] at h
          simp at h
          subst h
          by_cases heq : gid = a
          · subst heq
            refine ⟨c, ?_, (load_config_ok_elim h1).2⟩
            simp [List.lookup]
          · rcases List.mem_cons.mp hmem with rfl | hmem'
            · exact absurd rfl heq
            · obtain ⟨cfg, hcl, hcv⟩ := ih cs h2 gid hmem'
              refine ⟨cfg, ?_, hcv⟩
              have hne : (gid == a) = false := beq_eq_false_iff_ne.mpr heq
              simpa [List.lookup, hne] using hcl
  · intro gids
    induction gids with
    | nil => intro gid hmem; simp at hmem
    | cons a rest ih =>
      intro gid hmem herr
      cases h1 : load_config fetch a with
      | error e => exact ⟨e, by unfold load_guild_configs; rw [h1]⟩
      | ok c =>
        rcases List.mem_cons.mp hmem with rfl | hmem'
        · obtain ⟨e, he⟩ := herr
          rw [h1] at he
          simp at he
        · obtain ⟨e2, h2⟩ := ih gid hmem' herr
          refine ⟨e2, ?_⟩
          unfold load_guild_configs
          rw [h1, h2]

/-- Fetch function returning the same valid config for every guild. -/
def fetch_ok : GuildId → Except LoadConfigError GuildConfig := fun _ => Except.ok g_ok

/-- Witness for C4: loading the one-guild list `[1]` through `fetch_ok`
yields a map whose entry for guild 1 is validated. -/
theorem load_fails_closed_witness :
    ∃ cfg, ([(1, g_ok)] : List (GuildId × GuildConfig)).lookup 1 = some cfg ∧
      validate_guild_config cfg = Except.ok () :=
  (load_fails_closed fetch_ok).2.1 [1] [(1, g_ok)] (by rfl) 1 (by decide)

/-- **C6 counterexample** The claim fails as stated: the word list `["!"]`
is accepted at policy-load time (it compiles to the pattern `\b(!)\b`),
yet running the compiled matcher against the original word `"!"` alone
does not match, because `!` is not a word character so neither `\b`
anchor can be satisfied. -/
theorem words_roundtrip_counterexample :
    "!" ∈ ["!"] ∧ deserialize_word_regex ["!"] = "\\b(!)\\b" ∧
    word_regex_matches ["!"] "!" = false := by decide

/-- **C6 (amended)** Round-trip for word-shaped words: for every word list
and every word in it that begins and ends with a word character
(alphanumeric or underscore), the compiled Words matcher matches when run
against that word alone as the input text. -/
theorem words_roundtrip_amended (ws : List String) (w : String) (hmem : w ∈ ws)
    (hfirst : optIsWord w.toList.head? = true)
    (hlast : optIsWord w.toList.getLast? = true) :
    word_regex_matches ws w = true := by
  unfold word_regex_matches
  rw [List.any_eq_true]
  refine ⟨w, hmem, ?_⟩
  rw [List.any_eq_true]
  refine ⟨0, List.mem_range.mpr (Nat.succ_pos _), ?_⟩
  unfold word_match_at boundaries_ok
  simp only [List.take_zero, List.drop_zero, List.take_length, List.drop_length,
    List.append_nil, List.nil_append, List.getLast?_nil, List.head?_nil]
  rw [isBoundary, isBoundary, hfirst, hlast]
  simp [optIsWord]

/-- Witness for C6 (amended): the word `"a"` of the list `["a", "b"]`
matches against itself. -/
theorem words_roundtrip_amended_witness :
    ("a" ∈ ["a", "b"]) ∧ word_regex_matches ["a", "b"] "a" = true :=
  ⟨by decide, words_roundtrip_amended ["a", "b"] "a" (by decide) (by decide) (by decide)⟩

lemma test_command_loop_snd (ft : MessageFilter → String → Except String Unit) (m : String) :
    ∀ (l : List MessageFilter) (r : Except String Unit) (acc : List (Except String Unit)),
      (test_command_loop ft m l (r, acc)).2 = acc ++ l.map (fun f => ft f m) := by
  intro l
  induction l with
  | nil => intro r acc; simp [test_command_loop]
  | cons f l ih => intro r acc; simp [test_command_loop, ih]

lemma test_command_loop_error (ft : MessageFilter → String → Except String Unit) (m : String) :
    ∀ (l : List MessageFilter) (e : String) (acc : List (Except String Unit)),
      (test_command_loop ft m l (Except.error e, acc)).1 = Except.error e := by
  intro l
  induction l with
  | nil => intro e acc; simp [test_command_loop]
  | cons f l ih => intro e acc; simp [test_command_loop, result_and, ih]

lemma test_command_loop_ok (ft : MessageFilter → String → Except String Unit) (m : String) :
    ∀ (l : List MessageFilter) (acc : List (Except String Unit)),
      (∀ f ∈ l, ft f m = Except.ok ()) →
      (test_command_loop ft m l (Except.ok (), acc)).1 = Except.ok () := by
  intro l
  induction l with
  | nil => intro acc _; simp [test_command_loop]
  | cons f l ih =>
    intro acc h
    have hf : ft f m = Except.ok () := h f (List.mem_cons_self f l)
    simp only [test_command_loop, result_and, hf]
    exact ih _ (fun f' hf' => h f' (List.mem_cons_of_mem f hf'))

lemma test_command_loop_append (ft : MessageFilter → String → Except String Unit) (m : String) :
    ∀ (l1 l2 : List MessageFilter) (acc : Except String Unit × List (Except String Unit)),
      test_command_loop ft m (l1 ++ l2) acc
        = test_command_loop ft m l2 (test_command_loop ft m l1 acc) := by
  intro l1
  induction l1 with
  | nil => intro l2 acc; simp [test_command_loop]
  | cons f l ih => intro l2 acc; simp [test_command_loop, ih]

/-- **C9 (amended)** The test command evaluates every message filter of
the guild regardless of earlier results (the loop invokes `filter_text`
eagerly for each filter, in order), but its report is one aggregated
result, not a per-filter one: "✅ Passed all filters" when every filter
passes, otherwise "❎ Failed filter: " followed by the reason of the first
failing filter only. -/
theorem test_command_diagnostic (ft : MessageFilter → String → Except String Unit)
    (fs : List MessageFilter) (m : String) :
    test_command_evaluations ft fs m = fs.map (fun f => ft f m) ∧
    ((∀ f, f ∈ fs → ft f m = Except.ok ()) →
       test_command_report ft fs m = "✅ Passed all filters") ∧
    (∀ pre f post reason, fs = pre ++ f :: post →
       (∀ f', f' ∈ pre → ft f' m = Except.ok ()) →
       ft f m = Except.error reason →
       test_command_report ft fs m = "❎ Failed filter: " ++ reason) := by
  refine ⟨?_, ?_, ?_⟩
  · simpa [test_command_evaluations] using
      test_command_loop_snd ft m fs (Except.ok ()) []
  · intro h
    unfold test_command_report test_command_result
    rw [test_command_loop_ok ft m fs [] h]
  · intro pre f post reason hfs hpre herr
    unfold test_command_report test_command_result
    subst hfs
    rw [test_command_loop_append]
    have h1 : (test_command_loop ft m pre (Except.ok (), [])).1 = Except.ok () :=
      test_command_loop_ok ft m pre [] hpre
    have hres : (test_command_loop ft m (f :: post)
        (test_command_loop ft m pre (Except.ok (), []))).1 = Except.error reason := by
      simp only [test_command_loop, result_and, h1, herr]
      exact test_command_loop_error ft m post reason _
    rw [hres]

/-- A filter-evaluation oracle that always passes. -/
def ft_ok : MessageFilter → String → Except String Unit := fun _ _ => Except.ok ()

/-- Witness for C9 (amended): a one-filter guild whose filter passes is
reported as passing all filters. -/
theorem test_command_diagnostic_witness :
    test_command_report ft_ok [mf_ok] "m" = "✅ Passed all filters" :=
  (test_command_diagnostic ft_ok [mf_ok] "m").2.1 (fun _ _ => rfl)

/-- Message filter named "A" with no actions of its own. -/
def f_A : MessageFilter :=
  { name := "A", rules := [MessageFilterRule.Zalgo], scoping := none, actions := none }

/-- Message filter named "B" with no actions of its own. -/
def f_B : MessageFilter :=
  { name := "B", rules := [MessageFilterRule.Zalgo], scoping := none, actions := none }

/-- Filter evaluation in which both filters fail. -/
def ft_both : MessageFilter → String → Except String Unit :=
  fun f _ => if f.name == "A" then Except.error "matched A" else Except.error "matched B"

/-- Filter evaluation in which only the first filter fails. -/
def ft_first : MessageFilter → String → Except String Unit :=
  fun f _ => if f.name == "A" then Except.error "matched A" else Except.ok ()

/-- **C9 counterexample** The report does not give a pass/fail result per
filter: filter B fails in one run and passes in the other, yet the two
runs produce the identical report, which names only the first failing
filter's reason. -/
theorem test_report_counterexample :
    ft_both f_B "m" = Except.error "matched B" ∧
    ft_first f_B "m" = Except.ok () ∧
    test_command_report ft_both [f_A, f_B] "m" = "❎ Failed filter: matched A" ∧
    test_command_report ft_first [f_A, f_B] "m" = "❎ Failed filter: matched A" :=
  ⟨rfl, rfl, rfl, rfl⟩
